import Mathlib

/-!
Shallow embedding of the FED press-conference scraper (src/main.py, src/config.py).

The Python program uses the `re` module with a handful of fixed patterns
(character classes, literals, greedy `+`, `*`, `{1,2}`, `{3}` quantifiers and
no alternation), so the regex fragment actually used is embedded here as a
small backtracking matcher with exactly the leftmost, greedy, first-success
semantics of the `re` engine on those constructs.  Strings are modelled as
their character lists; network, PDF parsing and the filesystem are modelled at
the call boundary (a response per attempt, a page list per document, an
observable file state per write), everything else follows the source line by
line.
-/

namespace FedScraper

/-- Python whitespace class for the ASCII range: the characters matched by
regex class backslash-s and stripped by str.strip in the texts this program
handles (space, tab, newline, carriage return, vertical tab, form feed). -/
def isPySpace (c : Char) : Bool :=
  c == ' ' || c == '\t' || c == '\n' || c == '\r' || c == Char.ofNat 11 || c == Char.ofNat 12

/-- Apostrophe character (written by code point to keep literals simple). -/
def apos : Char := Char.ofNat 39

/-- Right single quotation mark U+2019, the second quote the header regex accepts. -/
def rsquo : Char := Char.ofNat 8217

/-- Regex abstract syntax for the fragment used in `_compile_regex_patterns`:
empty, a single-character class, concatenation, prioritized choice (used only
to encode the greedy `{1,2}` quantifier) and greedy star of a character class
(every starred subterm in the source patterns is a character class). -/
inductive RE where
  | eps : RE
  | pred : (Char → Bool) → RE
  | cat : RE → RE → RE
  | alt : RE → RE → RE
  | starP : (Char → Bool) → RE

/-- Greedy star of a character class in continuation style: consume as many
class characters as possible, then backtrack one character at a time until the
continuation succeeds, exactly as the `re` engine does. -/
def greedyStar (p : Char → Bool) (k : List Char → Option (List Char)) :
    List Char → Option (List Char)
  | [] => k []
  | c :: rest =>
    if p c then
      match greedyStar p k rest with
      | some r => some r
      | none => k (c :: rest)
    else k (c :: rest)

/-- Backtracking matcher: `matchRE r s k` tries to match `r` at the start of
`s` and passes the remaining suffix to the continuation `k`; the first
success in the engine's preference order wins, mirroring Python `re`. -/
def matchRE : RE → List Char → (List Char → Option (List Char)) → Option (List Char)
  | RE.eps, s, k => k s
  | RE.pred _, [], _ => none
  | RE.pred p, c :: rest, k => if p c then k rest else none
  | RE.cat a b, s, k => matchRE a s fun s2 => matchRE b s2 k
  | RE.alt a b, s, k =>
    match matchRE a s k with
    | some r => some r
    | none => matchRE b s k
  | RE.starP p, s, k => greedyStar p k s

/-- One scan of `re.sub`: at each position try a match; on a non-empty match
emit the replacement and continue after the match, on an empty match emit the
replacement plus the current character (Python advances by one), otherwise
copy the character.  The fuel argument is the input length, which bounds the
number of scan steps since every step consumes at least one character. -/
def subAux (r : RE) (repl : List Char) : Nat → List Char → List Char
  | _, [] => []
  | 0, s => s
  | fuel + 1, c :: rest =>
    match matchRE r (c :: rest) some with
    | some rem =>
      if rem.length = rest.length + 1 then repl ++ c :: subAux r repl fuel rest
      else repl ++ subAux r repl fuel rem
    | none => c :: subAux r repl fuel rest

/-- `re.sub(pattern, repl, s)` for the embedded patterns. -/
def reSub (r : RE) (repl s : String) : String :=
  String.mk (subAux r repl.data s.data.length s.data)

/-- Single literal character. -/
def charRE (c : Char) : RE := RE.pred (fun x => x == c)

/-- Literal string. -/
def litRE (s : String) : RE := s.data.foldr (fun c r => RE.cat (charRE c) r) RE.eps

/-- Sequence of regexes. -/
def seqRE (l : List RE) : RE := l.foldr RE.cat RE.eps

/-- Class backslash-d (the inputs are ASCII). -/
def digitC (c : Char) : Bool := c.isDigit

/-- Class `[A-Za-z]`. -/
def alphaC (c : Char) : Bool := c.isAlpha

/-- Greedy `+` over a character class. -/
def plusRE (p : Char → Bool) : RE := RE.cat (RE.pred p) (RE.starP p)

/-- Pattern fragment for `\s*`. -/
def sStar : RE := RE.starP isPySpace

/-- Pattern fragment for `\s+`. -/
def sPlus : RE := plusRE isPySpace

/-- Class `[` apostrophe, U+2019, whitespace `]` from the possessive fragment. -/
def aposClass (c : Char) : Bool := c == apos || c == rsquo || isPySpace c

/-- `self.page_number_pattern`, main.py line 67: `Page \d+ of \d+`
(with literal single spaces). -/
def pageNumberPattern : RE :=
  seqRE [litRE "Page ", plusRE digitC, litRE " of ", plusRE digitC]

/-- Day fragment `\d{1,2}`, greedy: two digits preferred over one. -/
def dayRE : RE := RE.cat (RE.pred digitC) (RE.alt (RE.pred digitC) RE.eps)

/-- Year fragment `\d{3}\s*\d`: three digits, optional whitespace, one digit. -/
def yearRE : RE :=
  seqRE [RE.pred digitC, RE.pred digitC, RE.pred digitC, sStar, RE.pred digitC]

/-- Date fragment `[A-Za-z]+\s+\d{1,2}\s*,\s*\d{3}\s*\d` shared by the header
pattern and the transcript-with-date pattern. -/
def dateRE : RE :=
  seqRE [plusRE alphaC, sPlus, dayRE, sStar, litRE ",", sStar, yearRE]

/-- Fragment `Chair\s+Powell\s*[quote-class]*s\s+Press\s+Conference` shared by
the header and both transcript patterns. -/
def powellRE : RE :=
  seqRE [litRE "Chair", sPlus, litRE "Powell", sStar, RE.starP aposClass,
    litRE "s", sPlus, litRE "Press", sPlus, litRE "Conference"]

/-- `self.header_pattern`, main.py lines 68-70. -/
def headerPattern : RE := seqRE [dateRE, sPlus, powellRE, sPlus, litRE "FINAL"]

/-- `self.transcript_with_date_pattern`, main.py lines 71-73. -/
def transcriptWithDatePattern : RE :=
  seqRE [litRE "Transcript", sPlus, litRE "of", sPlus, powellRE, sPlus, dateRE]

/-- `self.transcript_pattern`, main.py lines 74-76. -/
def transcriptPattern : RE :=
  seqRE [litRE "Transcript", sPlus, litRE "of", sPlus, powellRE]

/-- `self.whitespace_pattern`, main.py line 77: `\s+`. -/
def whitespacePattern : RE := sPlus

/-- Python `str.strip()` on the program's texts: drop whitespace from both ends. -/
def pyStrip (s : String) : String :=
  String.mk (((s.data.dropWhile isPySpace).reverse.dropWhile isPySpace).reverse)

/-- Regex word character (class backslash-w for ASCII input): letters, digits,
underscore. -/
def wordChar (c : Char) : Bool := c.isAlphanum || c == Char.ofNat 95

/-- Word-ness of a neighbouring position; out of the string counts as non-word. -/
def wordOpt : Option Char → Bool
  | none => false
  | some c => wordChar c

/-- A word boundary between two adjacent positions: their word-ness differs. -/
def bnd (a b : Option Char) : Bool := wordOpt a != wordOpt b

/-- Does `pat` occur at the very start of `l`. -/
def hasPre : List Char → List Char → Bool
  | [], _ => true
  | _ :: _, [] => false
  | a :: as, b :: bs => a == b && hasPre as bs

/-- Python substring containment `pat in l`. -/
def occursIn (pat : List Char) : List Char → Bool
  | [] => hasPre pat []
  | c :: rest => hasPre pat (c :: rest) || occursIn pat rest

/-- `re.sub` of the pattern boundary + escaped literal name + boundary, used by
`_tag_names_in_text` (main.py lines 213-214).  Because the core is an escaped
literal, a match at a position is exactly: the name is a leading segment of
the suffix there, with word boundaries on both sides.  `prev` is the character
just before the current position (`none` at the start of the string).  Names
loaded by `_load_names_from_file` are stripped non-blank lines, hence
non-empty. -/
def subNameAux (name repl : List Char) : Nat → Option Char → List Char → List Char
  | _, _, [] => []
  | 0, _, s => s
  | fuel + 1, prev, c :: rest =>
    if !name.isEmpty && hasPre name (c :: rest) && bnd prev (some c)
        && bnd name.getLast? ((c :: rest).drop name.length).head? then
      repl ++ subNameAux name repl fuel name.getLast? ((c :: rest).drop name.length)
    else c :: subNameAux name repl fuel (some c) rest

/-- Whole-word substitution of one registry name. -/
def subName (name repl : List Char) (s : String) : String :=
  String.mk (subNameAux name repl s.data.length none s.data)

/-- The replacement text `<NAME>...</NAME>` built in main.py line 214. -/
def nameTag (name : String) : String := "<NAME>" ++ name ++ "</NAME>"

/-- `_tag_names_in_text`, main.py lines 196-216: with an empty registry the
text is returned unchanged, otherwise each name in registry order is
substituted (guarded by a containment test) over the cumulatively mutated
text. -/
def tag_names_in_text (names : List String) (text_content : String) : String :=
  if names.isEmpty then text_content
  else
    names.foldl
      (fun acc name =>
        if occursIn name.data acc.data then subName name.data (nameTag name).data acc
        else acc)
      text_content

/-- Whitespace collapse, step 5 of the cleaner (main.py line 190). -/
def wsCollapse (s : String) : String := reSub whitespacePattern " " s

/-- Steps 1-5 of `clean_extracted_text` (main.py lines 186-190): page-number
removal, header removal, transcript-with-date removal, transcript removal,
whitespace collapse, in source order. -/
def cleanStructural (s : String) : String :=
  wsCollapse
    (reSub transcriptPattern ""
      (reSub transcriptWithDatePattern ""
        (reSub headerPattern ""
          (reSub pageNumberPattern "" s))))

/-- `clean_extracted_text`, main.py lines 173-194: empty input short-circuits,
otherwise the five structural substitutions, then name tagging, then strip. -/
def clean_extracted_text (names : List String) (text_content : String) : String :=
  if text_content = "" then text_content
  else pyStrip (tag_names_in_text names (cleanStructural text_content))

/-- Result of `page.extract_text()` for one page, at the pdfplumber boundary:
a text (possibly empty), no text (`None`), or an exception. -/
inductive PageResult where
  | text : String → PageResult
  | noText : PageResult
  | raises : PageResult
deriving DecidableEq

/-- A fetched byte stream at the pdfplumber boundary: a parsed page list, or a
stream `pdfplumber.open` rejects. -/
inductive PdfDoc where
  | doc : List PageResult → PdfDoc
  | invalid : PdfDoc
deriving DecidableEq

/-- The page loop of `extract_text_from_pdf` (main.py lines 236-245): keep a
page's text when extraction neither raised nor returned a falsy value, skip
the page otherwise. -/
def text_parts : List PageResult → List String
  | [] => []
  | PageResult.text s :: rest => if s = "" then text_parts rest else s :: text_parts rest
  | PageResult.noText :: rest => text_parts rest
  | PageResult.raises :: rest => text_parts rest

/-- `extract_text_from_pdf`, main.py lines 218-253: error when the stream does
not parse or when no page yielded text, otherwise the newline join of the
kept page texts, stripped. -/
def extract_text_from_pdf : PdfDoc → Except Unit String
  | PdfDoc.invalid => Except.error ()
  | PdfDoc.doc pages =>
    let parts := text_parts pages
    if parts = [] then Except.error ()
    else Except.ok (pyStrip (String.intercalate "\n" parts))

/-- `ScraperConfig`, src/config.py (time-valued fields `delay`,
`retry_delay`, `request_timeout` only matter here as the sleeps and waits the
code performs, which the traces below count; their float values carry no
logic). -/
structure ScraperConfig where
  base_url : String := "https://www.federalreserve.gov/mediacenter/files/"
  output_dir : String := "fed_press_conferences"
  max_retries : Nat := 3

/-- `DEFAULT_CONFIG`, src/config.py line 33. -/
def DEFAULT_CONFIG : ScraperConfig := {}

/-- One HTTP attempt at the requests boundary: a status code with a body, or
a transport failure (`requests.exceptions.RequestException`). -/
inductive HttpResponse where
  | resp : Nat → String → HttpResponse
  | transportErr : HttpResponse
deriving DecidableEq

/-- Observable effects of one `download_pdf` call: the returned value, the
number of GET requests issued and the number of `retry_delay` sleeps. -/
structure FetchTrace where
  result : Option String
  requests : Nat
  sleeps : Nat
deriving DecidableEq

/-- The attempt loop of `download_pdf` (main.py lines 144-171), one list
element per remaining value of `attempt`: status 200 returns the body, 404
returns `None` at once, any other status falls through to the next attempt
with no sleep, a transport error sleeps and retries unless this was the final
attempt, and an exhausted loop returns `None`. -/
def downloadGo (max_retries : Nat) (responses : Nat → HttpResponse) :
    List Nat → Nat → Nat → FetchTrace
  | [], reqs, slps => { result := none, requests := reqs, sleeps := slps }
  | attempt :: rest, reqs, slps =>
    match responses attempt with
    | HttpResponse.resp code content =>
      if code = 200 then { result := some content, requests := reqs + 1, sleeps := slps }
      else if code = 404 then { result := none, requests := reqs + 1, sleeps := slps }
      else downloadGo max_retries responses rest (reqs + 1) slps
    | HttpResponse.transportErr =>
      if attempt < max_retries - 1 then downloadGo max_retries responses rest (reqs + 1) (slps + 1)
      else { result := none, requests := reqs + 1, sleeps := slps }

/-- `download_pdf`, main.py lines 131-171, over the per-attempt remote
behaviour `responses`. -/
def download_pdf (max_retries : Nat) (responses : Nat → HttpResponse) : FetchTrace :=
  downloadGo max_retries responses (List.range max_retries) 0 0

/-- A retryable attempt outcome: any status other than 200 and 404, or a
transport error. -/
def retryable : HttpResponse → Bool
  | HttpResponse.resp code _ => !(code == 200) && !(code == 404)
  | HttpResponse.transportErr => true

/-- The date-derived output filename, main.py line 270 / line 336. -/
def txt_filename (date_str : String) : String := "FOMCpresconf" ++ date_str ++ ".txt"

/-- `save_text_file`, main.py lines 255-282: blank content is rejected before
any file operation; otherwise the write either completes (returning the pair
path, content actually written) or the I/O error path returns failure.  The
`ioOk` flag is the filesystem boundary. -/
def save_text_file (date_str : String) (ioOk : Bool) (text_content : String) :
    Bool × Option (String × String) :=
  if pyStrip text_content = "" then (false, none)
  else if ioOk then (true, some (txt_filename date_str, text_content))
  else (false, none)

/-- The successive contents observable at the final output path during
`save_text_file` (main.py lines 273-275): the previous content, then the
empty file left by `open(path, "w")` truncating in place, then the completed
content.  Blank content returns before any file operation. -/
def save_text_file_states (prev : Option String) (text_content : String) :
    List (Option String) :=
  if pyStrip text_content = "" then [prev]
  else [prev, some "", some text_content]

/-- `process_date`, main.py lines 326-355: skip when the output file exists;
a `None` fetch returns failure; an extraction error or empty extraction
returns failure; otherwise the extracted text is handed to `save_text_file`
unchanged.  The second component is the completed write, if any. -/
def process_date (date_str : String) (file_exists : Bool) (fetched : Option PdfDoc)
    (ioOk : Bool) : Bool × Option (String × String) :=
  if file_exists then (true, none)
  else
    match fetched with
    | none => (false, none)
    | some pdf =>
      match extract_text_from_pdf pdf with
      | Except.error _ => (false, none)
      | Except.ok t => if t = "" then (false, none) else save_text_file date_str ioOk t

/-- Everything outside the program that one date's processing can observe:
its output-file state, the remote behaviour per attempt, how the fetched
bytes parse as a PDF, and whether the write succeeds. -/
structure DateEnv where
  date : String
  file_exists : Bool
  responses : Nat → HttpResponse
  parsePdf : String → PdfDoc
  ioOk : Bool

/-- The fetch step of one date: the bytes returned by `download_pdf`, parsed
at the pdfplumber boundary. -/
def fetchOf (cfg : ScraperConfig) (env : DateEnv) : Option PdfDoc :=
  Option.map env.parsePdf (download_pdf cfg.max_retries env.responses).result

/-- One full `process_date` call inside the batch loop. -/
def runDateFull (cfg : ScraperConfig) (env : DateEnv) : Bool × Option (String × String) :=
  process_date env.date env.file_exists (fetchOf cfg env) env.ioOk

/-- The boolean the batch loop sees for one date. -/
def runDate (cfg : ScraperConfig) (env : DateEnv) : Bool := (runDateFull cfg env).1

/-- `scrape_predefined_dates`, main.py lines 357-388: empty date list returns
`(0, 0)`; otherwise one pass over the dates in the given order, counting the
dates whose `process_date` returned true, sleeping `delay` once after every
date regardless of outcome.  Result: `((success_count, total_count), number
of delay sleeps, dates processed in order)`. -/
def scrape_predefined_dates (cfg : ScraperConfig) (envs : List DateEnv) :
    (Nat × Nat) × Nat × List String :=
  if envs.isEmpty then ((0, 0), 0, [])
  else
    let r := envs.foldl
      (fun acc env =>
        ((if runDate cfg env then acc.1 + 1 else acc.1), acc.2.1 + 1, acc.2.2 ++ [env.date]))
      ((0 : Nat), (0 : Nat), ([] : List String))
    ((r.1, envs.length), r.2.1, r.2.2)

/-- Direct description of a maximal-whitespace-run collapse, used to reason
about step 5. -/
def collapseWS : List Char → List Char
  | [] => []
  | c :: rest =>
    if isPySpace c then ' ' :: collapseWS (rest.dropWhile isPySpace)
    else c :: collapseWS rest
termination_by l => l.length
decreasing_by
  · exact Nat.lt_succ_of_le (List.dropWhile_suffix isPySpace).length_le
  · exact Nat.lt_succ_self _

/-- The page texts a document contributes, phrased as the specification does:
keep exactly the non-empty texts of the pages that neither raised nor came
back empty. -/
def pageContrib : PageResult → Option String
  | PageResult.text s => if s = "" then none else some s
  | PageResult.noText => none
  | PageResult.raises => none

/-- Apostrophe as a one-character string, for building test texts. -/
def aposS : String := String.mk [apos]

/-- The literal span of the header-removal test case in the specification
(section 8), with an unsplit year followed by a page number. -/
def c2span : String :=
  "January 31, 2024 2 Chair Powell" ++ aposS ++ "s Press Conference FINAL"

/-- An input containing that span between ordinary prose. -/
def c2input : String := "Intro remarks " ++ c2span ++ " closing remarks"

/-- The span the compiled header pattern actually removes: the year digits
split by whitespace, as the source PDFs render them. -/
def c2splitSpan : String :=
  "January 31, 202 4 Chair Powell" ++ aposS ++ "s Press Conference FINAL"

/-- An input containing the split-year span between ordinary prose. -/
def c2splitInput : String := "Intro remarks " ++ c2splitSpan ++ " closing remarks"

/-- Raw page text whose cleaned form differs from it (it contains a page
marker), for the persistence claims. -/
def c1raw : String := "Hello Page 1 of 2 world"

/-- A string on which removal of an inner page marker splices the surrounding
text into a fresh page marker. -/
def c5seed : String := "Page 1 Page 2 of 3 of 4"

/-- Batch scenario: date already done. -/
def envDone : DateEnv :=
  { date := "20240101", file_exists := true, responses := fun _ => HttpResponse.transportErr,
    parsePdf := fun _ => PdfDoc.invalid, ioOk := true }

/-- Batch scenario: fetched, extracted and saved. -/
def envSavedA : DateEnv :=
  { date := "20240102", file_exists := false,
    responses := fun _ => HttpResponse.resp 200 "PDFBYTES",
    parsePdf := fun _ => PdfDoc.doc [PageResult.text "Some transcript text."], ioOk := true }

/-- Batch scenario: a second saved date. -/
def envSavedB : DateEnv :=
  { date := "20240103", file_exists := false,
    responses := fun _ => HttpResponse.resp 200 "PDFBYTES",
    parsePdf := fun _ => PdfDoc.doc [PageResult.text "More transcript text."], ioOk := true }

/-- Batch scenario: the remote reports not-found on the first attempt. -/
def envNotFound : DateEnv :=
  { date := "20240104", file_exists := false, responses := fun _ => HttpResponse.resp 404 "",
    parsePdf := fun _ => PdfDoc.invalid, ioOk := true }

/-- Batch scenario: every attempt is a transport error, exhausting the retry
budget. -/
def envExhausted : DateEnv :=
  { date := "20240105", file_exists := false, responses := fun _ => HttpResponse.transportErr,
    parsePdf := fun _ => PdfDoc.invalid, ioOk := true }

set_option maxRecDepth 8000

/-- Greedy star with an always-succeeding continuation consumes exactly the
maximal class prefix. -/
theorem greedyStar_some (p : Char → Bool) :
    ∀ l : List Char, greedyStar p some l = some (l.dropWhile p) := by
  intro l
  induction l with
  | nil => rfl
  | cons c rest ih =>
    by_cases h : p c
    · simp [greedyStar, h, List.dropWhile_cons, ih]
    · simp [greedyStar, h, List.dropWhile_cons]

/-- The whitespace pattern matched at a position: one whitespace character is
required, then the maximal whitespace run is consumed. -/
theorem matchRE_ws_cons (c : Char) (rest : List Char) :
    matchRE whitespacePattern (c :: rest) some =
      if isPySpace c then some (rest.dropWhile isPySpace) else none := by
  by_cases h : isPySpace c <;>
    simp [whitespacePattern, sPlus, plusRE, matchRE, h, greedyStar_some]

/-- The substitution scan of the whitespace pattern is exactly a maximal-run
collapse. -/
theorem subAux_ws : ∀ fuel : Nat, ∀ l : List Char, l.length ≤ fuel →
    subAux whitespacePattern [' '] fuel l = collapseWS l := by
  intro fuel
  induction fuel with
  | zero =>
    intro l h
    cases l with
    | nil => simp [subAux, collapseWS]
    | cons c rest => simp at h
  | succ n ih =>
    intro l h
    cases l with
    | nil => simp [subAux, collapseWS]
    | cons c rest =>
      have hrest : rest.length ≤ n := Nat.le_of_succ_le_succ h
      by_cases hc : isPySpace c
      · have hlen : (rest.dropWhile isPySpace).length ≠ rest.length + 1 := by
          have := (List.dropWhile_suffix (l := rest) isPySpace).length_le
          omega
        have hrec : (rest.dropWhile isPySpace).length ≤ n :=
          le_trans (List.dropWhile_suffix isPySpace).length_le hrest
        simp [subAux, matchRE_ws_cons, hc, hlen, ih _ hrec, collapseWS]
      · simp [subAux, matchRE_ws_cons, hc, ih _ hrest, collapseWS]

/-- Step 5 of the cleaner as a direct run collapse. -/
theorem wsCollapse_eq (s : String) : wsCollapse s = String.mk (collapseWS s.data) := by
  have hd : (" " : String).data = [' '] := rfl
  unfold wsCollapse reSub
  rw [hd, subAux_ws s.data.length s.data (le_refl _)]

/-- Dropping a satisfied prefix twice is the same as dropping it once. -/
theorem dropWhile_stable (p : Char → Bool) (l : List Char) :
    List.dropWhile p (List.dropWhile p l) = List.dropWhile p l := by
  induction l with
  | nil => rfl
  | cons c rest ih =>
    by_cases h : p c
    · simp [List.dropWhile_cons, h, ih]
    · simp [List.dropWhile_cons, h]

/-- A collapse of a list with no leading whitespace has no leading whitespace. -/
theorem collapseWS_drop (l : List Char) :
    List.dropWhile isPySpace (collapseWS (List.dropWhile isPySpace l)) =
      collapseWS (List.dropWhile isPySpace l) := by
  induction l with
  | nil => simp [collapseWS]
  | cons c rest ih =>
    by_cases h : isPySpace c
    · simpa [List.dropWhile_cons, h] using ih
    · simp [List.dropWhile_cons, h, collapseWS]

/-- Collapsing maximal whitespace runs is idempotent (auxiliary fuel form). -/
theorem collapseWS_idem_aux : ∀ n : Nat, ∀ l : List Char, l.length ≤ n →
    collapseWS (collapseWS l) = collapseWS l := by
  intro n
  induction n with
  | zero =>
    intro l h
    cases l with
    | nil => simp [collapseWS]
    | cons c rest => simp at h
  | succ n ih =>
    intro l h
    cases l with
    | nil => simp [collapseWS]
    | cons c rest =>
      have hrest : rest.length ≤ n := Nat.le_of_succ_le_succ h
      by_cases hc : isPySpace c
      · have hsp : isPySpace ' ' = true := rfl
        have hrec : (rest.dropWhile isPySpace).length ≤ n :=
          le_trans (List.dropWhile_suffix isPySpace).length_le hrest
        calc collapseWS (collapseWS (c :: rest))
            = collapseWS (' ' :: collapseWS (rest.dropWhile isPySpace)) := by
              simp [collapseWS, hc]
          _ = ' ' :: collapseWS
                (List.dropWhile isPySpace (collapseWS (rest.dropWhile isPySpace))) := by
              simp [collapseWS, hsp]
          _ = ' ' :: collapseWS (collapseWS (rest.dropWhile isPySpace)) := by
              rw [collapseWS_drop]
          _ = ' ' :: collapseWS (rest.dropWhile isPySpace) := by rw [ih _ hrec]
          _ = collapseWS (c :: rest) := by simp [collapseWS, hc]
      · calc collapseWS (collapseWS (c :: rest))
            = collapseWS (c :: collapseWS rest) := by simp [collapseWS, hc]
          _ = c :: collapseWS (collapseWS rest) := by simp [collapseWS, hc]
          _ = c :: collapseWS rest := by rw [ih _ hrest]
          _ = collapseWS (c :: rest) := by simp [collapseWS, hc]

/-- Collapsing maximal whitespace runs is idempotent. -/
theorem collapseWS_idem (l : List Char) : collapseWS (collapseWS l) = collapseWS l :=
  collapseWS_idem_aux l.length l (le_refl _)

/-- Step 5 of the cleaner is idempotent on every input. -/
theorem wsCollapse_idem (s : String) : wsCollapse (wsCollapse s) = wsCollapse s := by
  rw [wsCollapse_eq s, wsCollapse_eq]
  show String.mk (collapseWS (collapseWS s.data)) = String.mk (collapseWS s.data)
  rw [collapseWS_idem]

/-- The extraction page loop distributes over appending page lists. -/
theorem text_parts_append : ∀ xs ys : List PageResult,
    text_parts (xs ++ ys) = text_parts xs ++ text_parts ys := by
  intro xs ys
  induction xs with
  | nil => rfl
  | cons p rest ih =>
    cases p with
    | text s => by_cases h : s = "" <;> simp [text_parts, h, ih]
    | noText => simpa [text_parts] using ih
    | raises => simpa [text_parts] using ih

/-- The extraction page loop keeps exactly the per-page contributions, in
page order. -/
theorem text_parts_eq_filterMap : ∀ pages : List PageResult,
    text_parts pages = pages.filterMap pageContrib := by
  intro pages
  induction pages with
  | nil => rfl
  | cons p rest ih =>
    cases p with
    | text s =>
      by_cases h : s = "" <;> simp [text_parts, pageContrib, h, ih, List.filterMap_cons]
    | noText => simp [text_parts, pageContrib, ih, List.filterMap_cons]
    | raises => simp [text_parts, pageContrib, ih, List.filterMap_cons]

/-- A response with a status that is neither 200 nor 404 is what `retryable`
says it is. -/
theorem retryable_resp {c : Nat} {b : String}
    (h : retryable (HttpResponse.resp c b) = true) : ¬c = 200 ∧ ¬c = 404 := by
  simpa [retryable] using h

/-- A retryable non-final attempt passes control to the remaining attempts
with one more request issued. -/
theorem downloadGo_cons_retryable (mr : Nat) (responses : Nat → HttpResponse) (a : Nat)
    (rest : List Nat) (reqs slps : Nat) (h : retryable (responses a) = true)
    (ha : a < mr - 1) :
    ∃ slps2, downloadGo mr responses (a :: rest) reqs slps =
      downloadGo mr responses rest (reqs + 1) slps2 := by
  rcases hr : responses a with ⟨c, b⟩ | _
  · rw [hr] at h
    obtain ⟨hc2, hc4⟩ := retryable_resp h
    exact ⟨slps, by simp [downloadGo, hr, hc2, hc4]⟩
  · exact ⟨slps + 1, by simp [downloadGo, hr, ha]⟩

/-- A retryable outcome on the last remaining attempt ends the loop with one
more request and no content. -/
theorem downloadGo_singleton_retryable (mr : Nat) (responses : Nat → HttpResponse)
    (a : Nat) (reqs slps : Nat) (h : retryable (responses a) = true) :
    (downloadGo mr responses [a] reqs slps).result = none ∧
    (downloadGo mr responses [a] reqs slps).requests = reqs + 1 := by
  rcases hr : responses a with ⟨c, b⟩ | _
  · rw [hr] at h
    obtain ⟨hc2, hc4⟩ := retryable_resp h
    constructor <;> simp [downloadGo, hr, hc2, hc4]
  · by_cases ha : a < mr - 1 <;> constructor <;> simp [downloadGo, hr, ha]

/-- A string whose characters are all whitespace strips to the empty string. -/
theorem pyStrip_of_all_space {s : String} (h : ∀ c ∈ s.data, isPySpace c = true) :
    pyStrip s = "" := by
  have h1 : s.data.dropWhile isPySpace = [] := by
    rw [List.dropWhile_eq_nil_iff]
    intro x hx
    exact h x hx
  unfold pyStrip
  rw [h1]
  rfl

/-- C1, counterexample: with the output file absent, a successful fetch whose
single page extracts to a text containing a page marker, and a successful
write, `process_date` persists the raw extracted text itself, which differs
from the output of the full cleaner chain on that text — so the bytes written
are not the cleaned text. -/
theorem c1_counterexample :
    process_date "20240131" false (some (PdfDoc.doc [PageResult.text c1raw])) true =
      (true, some (txt_filename "20240131", c1raw)) ∧
    clean_extracted_text [] c1raw = "Hello world" ∧
    c1raw ≠ "Hello world" := by decide

/-- C1, amended: for every date whose output file does not exist and whose
fetch and extraction succeed with non-blank text, `process_date` persists the
extracted text verbatim to the date-derived path; the cleaner chain is applied
only by the separate `clean_all_text_files` pass. -/
theorem c1_persists_raw_extracted_text (date_str : String) (pdf : PdfDoc) (t : String)
    (hex : extract_text_from_pdf pdf = Except.ok t) (ht : pyStrip t ≠ "") :
    process_date date_str false (some pdf) true =
      (true, some (txt_filename date_str, t)) := by
  have ht0 : t ≠ "" := fun he => ht (by rw [he]; rfl)
  simp [process_date, hex, ht0, save_text_file, ht]

/-- C1, witness: the amended statement at a one-page document. -/
theorem c1_witness :
    process_date "20240131" false (some (PdfDoc.doc [PageResult.text "abc"])) true =
      (true, some (txt_filename "20240131", "abc")) :=
  c1_persists_raw_extracted_text "20240131" (PdfDoc.doc [PageResult.text "abc"]) "abc"
    rfl (by decide)

/-- C2, counterexample: on an input containing the literal span of the claim
(unsplit year "2024" followed by a page number), the header pattern matches
nothing, the full cleaner with an empty registry returns the input unchanged,
and the cleaned output still contains the span. -/
theorem c2_counterexample :
    reSub headerPattern "" c2input = c2input ∧
    clean_extracted_text [] c2input = c2input ∧
    occursIn c2span.data (clean_extracted_text [] c2input).data = true := by decide

/-- C2, amended: the header pattern requires the year digits split by
whitespace, as the source PDFs render them; on an input containing that
split-year span the whole span is removed and the surrounding text is joined
and whitespace-collapsed. -/
theorem c2_split_year_header_removed :
    cleanStructural c2splitInput = "Intro remarks closing remarks" ∧
    occursIn c2splitSpan.data (cleanStructural c2splitInput).data = false := by decide

/-- C3: when all of the configured `max_retries` attempts come back retryable
(a non-200, non-404 status or a transport error), `download_pdf` issues
exactly `max_retries` requests and returns no content; when the first attempt
is a 404, it issues exactly one request and returns no content at once. -/
theorem c3_retry_termination :
    (∀ responses : Nat → HttpResponse,
        (∀ i, i < DEFAULT_CONFIG.max_retries → retryable (responses i) = true) →
        (download_pdf DEFAULT_CONFIG.max_retries responses).result = none ∧
        (download_pdf DEFAULT_CONFIG.max_retries responses).requests =
          DEFAULT_CONFIG.max_retries) ∧
    (∀ responses : Nat → HttpResponse, ∀ body : String,
        responses 0 = HttpResponse.resp 404 body →
        (download_pdf DEFAULT_CONFIG.max_retries responses).result = none ∧
        (download_pdf DEFAULT_CONFIG.max_retries responses).requests = 1) := by
  constructor
  · intro responses h
    have h0 := h 0 (by decide)
    have h1 := h 1 (by decide)
    have h2 := h 2 (by decide)
    have hrange : List.range DEFAULT_CONFIG.max_retries = [0, 1, 2] := rfl
    obtain ⟨s1, e1⟩ := downloadGo_cons_retryable DEFAULT_CONFIG.max_retries responses 0
      [1, 2] 0 0 h0 (by decide)
    obtain ⟨s2, e2⟩ := downloadGo_cons_retryable DEFAULT_CONFIG.max_retries responses 1
      [2] (0 + 1) s1 h1 (by decide)
    have hl := downloadGo_singleton_retryable DEFAULT_CONFIG.max_retries responses 2
      (0 + 1 + 1) s2 h2
    unfold download_pdf
    rw [hrange, e1, e2]
    exact ⟨hl.1, by rw [hl.2]; decide⟩
  · intro responses body h0
    have hrange : List.range DEFAULT_CONFIG.max_retries = [0, 1, 2] := rfl
    unfold download_pdf
    rw [hrange]
    constructor <;> simp [downloadGo, h0]

/-- C3, witness: all-transport-error attempts give three requests and no
content; a first-attempt 404 gives one request and no content. -/
theorem c3_witness :
    ((download_pdf DEFAULT_CONFIG.max_retries (fun _ => HttpResponse.transportErr)).result
        = none ∧
      (download_pdf DEFAULT_CONFIG.max_retries (fun _ => HttpResponse.transportErr)).requests
        = DEFAULT_CONFIG.max_retries) ∧
    ((download_pdf DEFAULT_CONFIG.max_retries (fun _ => HttpResponse.resp 404 "nf")).result
        = none ∧
      (download_pdf DEFAULT_CONFIG.max_retries (fun _ => HttpResponse.resp 404 "nf")).requests
        = 1) :=
  ⟨c3_retry_termination.1 (fun _ => HttpResponse.transportErr) (fun _ _ => rfl),
    c3_retry_termination.2 (fun _ => HttpResponse.resp 404 "nf") "nf" rfl⟩

/-- C4: a raising page, a no-text page or an empty-text page anywhere in the
document leaves extraction exactly as if the page were absent; a document
with some non-empty page text extracts to the newline join of precisely the
per-page contributions in page order; a document with no non-empty page text
is an extraction error. -/
theorem c4_partial_extraction :
    (∀ xs ys : List PageResult,
        extract_text_from_pdf (PdfDoc.doc (xs ++ PageResult.raises :: ys)) =
          extract_text_from_pdf (PdfDoc.doc (xs ++ ys))) ∧
    (∀ xs ys : List PageResult,
        extract_text_from_pdf (PdfDoc.doc (xs ++ PageResult.noText :: ys)) =
          extract_text_from_pdf (PdfDoc.doc (xs ++ ys))) ∧
    (∀ xs ys : List PageResult,
        extract_text_from_pdf (PdfDoc.doc (xs ++ PageResult.text "" :: ys)) =
          extract_text_from_pdf (PdfDoc.doc (xs ++ ys))) ∧
    (∀ pages : List PageResult, (∃ s, PageResult.text s ∈ pages ∧ s ≠ "") →
        extract_text_from_pdf (PdfDoc.doc pages) =
          Except.ok (pyStrip (String.intercalate "\n" (pages.filterMap pageContrib)))) ∧
    (∀ pages : List PageResult, (∀ s, PageResult.text s ∈ pages → s = "") →
        extract_text_from_pdf (PdfDoc.doc pages) = Except.error ()) := by
  have hskip : ∀ q : PageResult, text_parts [q] = [] → ∀ xs ys : List PageResult,
      extract_text_from_pdf (PdfDoc.doc (xs ++ q :: ys)) =
        extract_text_from_pdf (PdfDoc.doc (xs ++ ys)) := by
    intro q hq xs ys
    have : text_parts (xs ++ q :: ys) = text_parts (xs ++ ys) := by
      rw [show q :: ys = [q] ++ ys from rfl, text_parts_append, text_parts_append, hq,
        text_parts_append]
      simp
    simp [extract_text_from_pdf, this]
  refine ⟨hskip PageResult.raises rfl, hskip PageResult.noText rfl,
    hskip (PageResult.text "") rfl, ?_, ?_⟩
  · intro pages hex
    obtain ⟨s, hmem, hs⟩ := hex
    have hne : ¬text_parts pages = [] := by
      rw [text_parts_eq_filterMap]
      intro hnil
      have hin : s ∈ pages.filterMap pageContrib :=
        List.mem_filterMap.mpr ⟨PageResult.text s, hmem, by simp [pageContrib, hs]⟩
      rw [hnil] at hin
      exact absurd hin (List.not_mem_nil s)
    simp only [extract_text_from_pdf]
    rw [if_neg hne, text_parts_eq_filterMap]
  · intro pages hall
    have hnil : text_parts pages = [] := by
      rw [text_parts_eq_filterMap]
      apply List.filterMap_eq_nil_iff.mpr
      intro p hp
      cases p with
      | text s =>
        have hs := hall s hp
        simp [pageContrib, hs]
      | noText => rfl
      | raises => rfl
    simp [extract_text_from_pdf, hnil]

/-- C4, witness: the parts of the extraction statement at concrete documents. -/
theorem c4_witness :
    extract_text_from_pdf (PdfDoc.doc [PageResult.text "alpha", PageResult.raises]) =
      extract_text_from_pdf (PdfDoc.doc [PageResult.text "alpha"]) ∧
    extract_text_from_pdf (PdfDoc.doc [PageResult.text "alpha", PageResult.text "beta"]) =
      Except.ok (pyStrip (String.intercalate "\n"
        ([PageResult.text "alpha", PageResult.text "beta"].filterMap pageContrib))) ∧
    extract_text_from_pdf (PdfDoc.doc [PageResult.raises, PageResult.text ""]) =
      Except.error () :=
  ⟨c4_partial_extraction.1 [PageResult.text "alpha"] [],
    c4_partial_extraction.2.2.2.1 [PageResult.text "alpha", PageResult.text "beta"]
      ⟨"alpha", by simp, by decide⟩,
    c4_partial_extraction.2.2.2.2 [PageResult.raises, PageResult.text ""]
      (by intro s hs; simpa using hs)⟩

/-- C5, counterexample: removing an inner page marker splices the surrounding
text into a fresh page marker, so a second application of steps 1-5 removes
more text than the first: the composition is not idempotent. -/
theorem c5_counterexample :
    cleanStructural c5seed = "Page 1 of 4" ∧
    cleanStructural (cleanStructural c5seed) = "" ∧
    cleanStructural (cleanStructural c5seed) ≠ cleanStructural c5seed := by decide

/-- C5, amended: steps 1-5 applied twice agree with one application on every
input in which none of the four boilerplate patterns matches, either before
or after whitespace collapsing (whitespace collapse itself is idempotent on
every input); in general a second pass can remove additional boilerplate
spliced together by the first pass's deletions. -/
theorem c5_structural_idempotence_on_clean_inputs (s : String)
    (h1 : reSub pageNumberPattern "" s = s)
    (h2 : reSub headerPattern "" s = s)
    (h3 : reSub transcriptWithDatePattern "" s = s)
    (h4 : reSub transcriptPattern "" s = s)
    (g1 : reSub pageNumberPattern "" (wsCollapse s) = wsCollapse s)
    (g2 : reSub headerPattern "" (wsCollapse s) = wsCollapse s)
    (g3 : reSub transcriptWithDatePattern "" (wsCollapse s) = wsCollapse s)
    (g4 : reSub transcriptPattern "" (wsCollapse s) = wsCollapse s) :
    cleanStructural (cleanStructural s) = cleanStructural s := by
  have hs : cleanStructural s = wsCollapse s := by
    unfold cleanStructural
    rw [h1, h2, h3, h4]
  rw [hs]
  unfold cleanStructural
  rw [g1, g2, g3, g4]
  exact wsCollapse_idem s

/-- C5, witness: the amended statement at a boilerplate-free input. -/
theorem c5_witness :
    cleanStructural (cleanStructural "plain transcript words") =
      cleanStructural "plain transcript words" :=
  c5_structural_idempotence_on_clean_inputs "plain transcript words"
    (by decide) (by decide) (by decide) (by decide)
    (by decide) (by decide) (by decide) (by decide)

/-- C6: on the five-date scenario (one already done, two saved, one remote
not-found, one retry-exhausted) the batch loop returns success count 3 and
total count 5, processes the dates in the given order, and sleeps the
politeness delay once after each of the five dates — five sleeps, including
one after the final date. -/
theorem c6_batch_aggregation :
    scrape_predefined_dates DEFAULT_CONFIG
        [envDone, envSavedA, envSavedB, envNotFound, envExhausted] =
      ((3, 5), 5, ["20240101", "20240102", "20240103", "20240104", "20240105"]) := by
  decide

/-- C7, counterexample: a date whose first attempt is a remote 404 and a date
whose every attempt is a transport error produce identical `process_date`
results — the returned value is the same `(false, none)` in both cases, so
the not-found outcome is not distinguishable from other fetch failures. -/
theorem c7_counterexample :
    runDateFull DEFAULT_CONFIG envNotFound = (false, none) ∧
    runDateFull DEFAULT_CONFIG envExhausted = (false, none) ∧
    runDateFull DEFAULT_CONFIG envNotFound = runDateFull DEFAULT_CONFIG envExhausted := by
  decide

/-- C7, amended: `process_date` returns only a boolean with the completed
write: an existing output file yields true with no write, and every fetch
failure — not-found and exhausted retries alike — yields the same false with
no write; no richer outcome type distinguishes them. -/
theorem c7_boolean_outcome (date_str : String) (fetched : Option PdfDoc) (ioOk : Bool) :
    process_date date_str true fetched ioOk = (true, none) ∧
    process_date date_str false none ioOk = (false, none) :=
  ⟨rfl, rfl⟩

/-- C8, counterexample: three attempts that all return status 500 are all
retryable and two of them are non-final, yet `download_pdf` sleeps zero
times — the status path falls through to the next attempt without sleeping. -/
theorem c8_counterexample :
    (download_pdf DEFAULT_CONFIG.max_retries
        (fun _ => HttpResponse.resp 500 "body")).sleeps = 0 ∧
    (download_pdf DEFAULT_CONFIG.max_retries
        (fun _ => HttpResponse.resp 500 "body")).requests = 3 := by decide

/-- C8, amended: only transport failures sleep between attempts — with every
attempt a transport error the loop sleeps `retry_delay` once per non-final
attempt, while with every attempt a retryable HTTP status it proceeds
immediately and sleeps zero times. -/
theorem c8_sleeps_only_after_transport_failures :
    (∀ responses : Nat → HttpResponse,
        (∀ i, i < DEFAULT_CONFIG.max_retries → responses i = HttpResponse.transportErr) →
        (download_pdf DEFAULT_CONFIG.max_retries responses).sleeps =
          DEFAULT_CONFIG.max_retries - 1) ∧
    (∀ responses : Nat → HttpResponse,
        (∀ i, i < DEFAULT_CONFIG.max_retries →
          ∃ code body, responses i = HttpResponse.resp code body ∧
            code ≠ 200 ∧ code ≠ 404) →
        (download_pdf DEFAULT_CONFIG.max_retries responses).sleeps = 0) := by
  constructor
  · intro responses h
    have h0 := h 0 (by decide)
    have h1 := h 1 (by decide)
    have h2 := h 2 (by decide)
    have hrange : List.range DEFAULT_CONFIG.max_retries = [0, 1, 2] := rfl
    unfold download_pdf
    rw [hrange]
    simp [downloadGo, h0, h1, h2, DEFAULT_CONFIG]
  · intro responses h
    obtain ⟨c0, b0, h0, h0a, h0b⟩ := h 0 (by decide)
    obtain ⟨c1, b1, h1, h1a, h1b⟩ := h 1 (by decide)
    obtain ⟨c2, b2, h2, h2a, h2b⟩ := h 2 (by decide)
    have hrange : List.range DEFAULT_CONFIG.max_retries = [0, 1, 2] := rfl
    unfold download_pdf
    rw [hrange]
    simp [downloadGo, h0, h1, h2, h0a, h0b, h1a, h1b, h2a, h2b]

/-- C8, witness: the amended statement at all-transport and all-status
attempt sequences. -/
theorem c8_witness :
    (download_pdf DEFAULT_CONFIG.max_retries (fun _ => HttpResponse.transportErr)).sleeps =
      DEFAULT_CONFIG.max_retries - 1 ∧
    (download_pdf DEFAULT_CONFIG.max_retries (fun _ => HttpResponse.resp 503 "b")).sleeps
      = 0 :=
  ⟨c8_sleeps_only_after_transport_failures.1 (fun _ => HttpResponse.transportErr)
      (fun _ _ => rfl),
    c8_sleeps_only_after_transport_failures.2 (fun _ => HttpResponse.resp 503 "b")
      (fun _ _ => ⟨503, "b", rfl, by decide, by decide⟩)⟩

/-- C9, counterexample: overwriting previous content, the file at the final
path passes through an observable empty state — neither absent, nor the
previous content, nor the complete new content — because the write opens the
final path in truncating write mode and writes in place. -/
theorem c9_counterexample :
    save_text_file_states (some "previous transcript") "new transcript" =
      [some "previous transcript", some "", some "new transcript"] ∧
    some "" ∈ save_text_file_states (some "previous transcript") "new transcript" ∧
    ("" : String) ≠ "previous transcript" ∧ ("" : String) ≠ "new transcript" := by decide

/-- C9, amended: persistence is not atomic — for every non-blank content the
write truncates the final path in place (an observable empty intermediate
state) and only the completed write leaves the full new content there. -/
theorem c9_truncate_then_write (prev : Option String) (content : String)
    (h : pyStrip content ≠ "") :
    some "" ∈ save_text_file_states prev content ∧
    (save_text_file_states prev content).getLast? = some (some content) := by
  unfold save_text_file_states
  rw [if_neg h]
  exact ⟨by simp, rfl⟩

/-- C9, witness: the amended statement at a fresh write. -/
theorem c9_witness :
    some "" ∈ save_text_file_states none "fresh content" ∧
    (save_text_file_states none "fresh content").getLast? = some (some "fresh content") :=
  c9_truncate_then_write none "fresh content" (by decide)

/-- C10: blank content — empty or all whitespace — is rejected by
`save_text_file` before any file operation: it returns false and performs no
write. -/
theorem c10_blank_content_not_saved (date_str : String) (ioOk : Bool) (s : String)
    (h : ∀ c ∈ s.data, isPySpace c = true) :
    save_text_file date_str ioOk s = (false, none) := by
  simp [save_text_file, pyStrip_of_all_space h]

/-- C10, witness: whitespace-only content is not saved. -/
theorem c10_witness : save_text_file "20240131" true "  \t " = (false, none) :=
  c10_blank_content_not_saved "20240131" true "  \t " (by decide)

end FedScraper
